import Mathlib

/-!
Verification development for the journaltx-pybot detection engine.

The definitions below are a shallow embedding of the Python source:
  * src/journaltx/ingest/quicknode/raydium_decoder.py  (transaction decoder)
  * src/journaltx/filters/signals.py                   (multi-signal tracker)
  * src/journaltx/filters/early_meme.py                (filter gate pipeline)
  * src/journaltx/ingest/quicknode/lp_events.py        (event processing)
  * src/journaltx/ingest/quicknode/transaction_parser.py (fetch retry loop)
  * src/scripts/listen.py                              (ingestion loop state)

Conventions of the embedding:
  * Python floats that hold lamport-derived or SOL amounts are modelled as
    exact rationals (ℚ); lamport balances are integers (ℤ), as in the JSON.
  * A Python value that may be absent is an Option; a string field read with
    a default of the empty string is modelled as a String that is "" when the
    key is missing (the source only ever tests such fields for truthiness or
    equality, for which this is equivalent).
  * The base58/base64 payload of an instruction is modelled by its decoded
    byte list; a payload that is missing, empty, or fails both decodings is
    modelled as none / some [] and classified "unknown" exactly as in the
    source.
  * Account indices are modelled as naturals (the source checks
    isinstance(int) and an upper bound before use; non-negative indices are
    the shape produced by the RPC).
  * datetime values are modelled as integer seconds; timedelta(minutes=w)
    is 60*w seconds.
-/

namespace JournalTx

/-- Raydium AMM V4 program id (raydium_decoder.py line 22). -/
def RAYDIUM_AMM_V4 : String := "675kPX9MHTjS2zt1qfr1NYHuzeLXfQM9H24wFSUt1Mp8"

/-- WSOL mint address (raydium_decoder.py line 25). -/
def WSOL_MINT : String := "So11111111111111111111111111111111111111112"

/-- Noise threshold in lamports, 0.1 SOL (raydium_decoder.py line 28). -/
def MIN_SOL_DELTA_LAMPORTS : ℤ := 100000000

/-- One entry of meta.preTokenBalances / meta.postTokenBalances. -/
structure TokenBalance where
  accountIndex : Option ℕ
  mint : String
  uiAmount : ℚ
  owner : String
deriving DecidableEq, Repr

/-- One instruction of the transaction message (or an inner instruction).
dataBytes is the decoded base58/base64 payload; none models a payload that
is missing, empty, or undecodable. -/
structure Instruction where
  programId : String
  dataBytes : Option (List ℕ)
  accounts : List ℕ
deriving DecidableEq, Repr

/-- The meta object of a getTransaction response. -/
structure TxMeta where
  err : Option String
  preBalances : List ℤ
  postBalances : List ℤ
  preTokenBalances : List TokenBalance
  postTokenBalances : List TokenBalance
  innerInstructions : List (List Instruction)
deriving DecidableEq, Repr

/-- A parsed transaction as consumed by decode_raydium_transaction.
accountKeys is the flat pubkey list (the normalisation done by
_get_account_keys collapses both the legacy string form and the versioned
record form to this list). -/
structure RawTransaction where
  meta : TxMeta
  signatures : List String
  accountKeys : List String
  instructions : List Instruction
deriving DecidableEq, Repr

/-- The pool_info dict built by _extract_pool_from_instruction; a missing
key read back with .get(k, "") is modelled as "". -/
structure PoolInfo where
  pool_address : String
  lp_mint : String := ""
  token_mint : String := ""
  quote_mint : String := WSOL_MINT
  token_vault : String := ""
  quote_vault : String := ""
deriving DecidableEq, Repr

/-- The amounts dict returned by _calculate_balance_deltas. -/
structure DeltaAmounts where
  sol_delta : ℚ
  sol_before : ℚ
  sol_after : ℚ
  token_delta : ℚ
  lp_minted : ℚ
deriving DecidableEq, Repr

/-- Decoder output record (raydium_decoder.py lines 31-43). -/
structure LPAdditionInfo where
  pool_address : String
  token_mint : String
  quote_mint : String
  token_amount : ℚ
  quote_amount_sol : ℚ
  lp_tokens_minted : ℚ
  liquidity_before_sol : ℚ
  liquidity_after_sol : ℚ
  is_pool_creation : Bool
  signature : String
deriving DecidableEq, Repr

/-- _decode_instruction_type (raydium_decoder.py lines 211-253): dispatch on
the first decoded byte. A missing/empty/undecodable payload is "unknown";
any discriminator outside the table is "unknown_lp". -/
def decode_instruction_type (dataBytes : Option (List ℕ)) : String :=
  match dataBytes with
  | none => "unknown"
  | some [] => "unknown"
  | some (d :: _) =>
    if d = 0 then "initialize"
    else if d = 1 then "initialize2"
    else if d = 3 then "deposit"
    else if d = 4 then "withdraw"
    else if d = 9 then "swap"
    else "unknown_lp"

/-- _find_raydium_instruction (raydium_decoder.py lines 181-208): first
matching top-level instruction, then first matching inner instruction. -/
def find_raydium_instruction (instructions : List Instruction) (meta : TxMeta) :
    Option Instruction × String :=
  match instructions.find? (fun ix => ix.programId = RAYDIUM_AMM_V4) with
  | some ix => (some ix, decode_instruction_type ix.dataBytes)
  | none =>
    match (meta.innerInstructions.flatten).find?
        (fun ix => ix.programId = RAYDIUM_AMM_V4) with
    | some ix => (some ix, decode_instruction_type ix.dataBytes)
    | none => (none, "unknown")

/-- get_account inside _extract_pool_from_instruction (lines 271-277):
bounds-checked double lookup. -/
def get_account (accounts : List ℕ) (accountKeys : List String) (idx : ℕ) :
    Option String :=
  match accounts[idx]? with
  | some ai => accountKeys[ai]?
  | none => none

/-- Python chained `a or b or ... or ""` over optional strings: the first
present, non-empty string, else "". -/
def first_truthy : List (Option String) → String
  | [] => ""
  | o :: rest =>
    match o with
    | some s => if s = "" then first_truthy rest else s
    | none => first_truthy rest

/-- _extract_pool_from_instruction (raydium_decoder.py lines 256-321). -/
def extract_pool_from_instruction (ix : Instruction) (accountKeys : List String)
    (ixType : String) : Option PoolInfo :=
  let accounts := ix.accounts
  if accounts = [] then none
  else if ixType = "initialize" ∨ ixType = "initialize2" then
    some { pool_address := (get_account accounts accountKeys 3).getD ""
           lp_mint := (get_account accounts accountKeys 6).getD ""
           token_mint := (get_account accounts accountKeys 7).getD ""
           quote_mint :=
             match get_account accounts accountKeys 8 with
             | some s => if s = "" then WSOL_MINT else s
             | none => WSOL_MINT
           token_vault := (get_account accounts accountKeys 9).getD ""
           quote_vault := (get_account accounts accountKeys 10).getD "" }
  else if ixType = "deposit" then
    some { pool_address := (get_account accounts accountKeys 1).getD ""
           lp_mint := (get_account accounts accountKeys 5).getD ""
           token_vault := (get_account accounts accountKeys 6).getD ""
           quote_vault := (get_account accounts accountKeys 7).getD ""
           token_mint := ""
           quote_mint := WSOL_MINT }
  else
    some { pool_address := first_truthy [get_account accounts accountKeys 0,
                                         get_account accounts accountKeys 1,
                                         get_account accounts accountKeys 3]
           token_mint := ""
           quote_mint := WSOL_MINT }

/-- First element attaining the maximal uiAmount (the element at index 0 of a
stable descending sort, as in sol_vaults.sort(reverse=True) at lines 347-351). -/
def first_max_by_amount (l : List TokenBalance) : Option TokenBalance :=
  l.find? (fun b => l.all (fun c => c.uiAmount ≤ b.uiAmount))

/-- _extract_pool_from_inner_instructions (raydium_decoder.py lines 324-371):
fallback that scans postTokenBalances for the WSOL holder with the largest
balance, then a token vault with the same owner. -/
def extract_pool_from_inner_instructions (meta : TxMeta) : Option PoolInfo :=
  let solVaults := meta.postTokenBalances.filter (fun b => b.mint = WSOL_MINT)
  let tokenVaults := meta.postTokenBalances.filter
    (fun b => b.mint ≠ WSOL_MINT ∧ b.mint ≠ "")
  match first_max_by_amount solVaults with
  | none => none
  | some top =>
    let poolOwner := top.owner
    let token_mint :=
      match tokenVaults.find? (fun tv => tv.owner = poolOwner) with
      | some tv => tv.mint
      | none => ""
    if token_mint = "" then none
    else some { pool_address := poolOwner
                token_mint := token_mint
                quote_mint := WSOL_MINT }

/-- Insert into a Python dict comprehension result: the key keeps its first
position, the value is overwritten by the later entry. -/
def dict_insert (d : List (Option ℕ × TokenBalance)) (k : Option ℕ)
    (v : TokenBalance) : List (Option ℕ × TokenBalance) :=
  if d.any (fun p => p.1 = k) then
    d.map (fun p => if p.1 = k then (k, v) else p)
  else d ++ [(k, v)]

/-- {b.get("accountIndex"): b for b in balances} (lines 396-397). -/
def tokens_by_index (l : List TokenBalance) : List (Option ℕ × TokenBalance) :=
  l.foldl (fun d b => dict_insert d b.accountIndex b) []

/-- dict .get lookup on the association list built by tokens_by_index. -/
def dict_get (d : List (Option ℕ × TokenBalance)) (k : Option ℕ) :
    Option TokenBalance :=
  (d.find? (fun p => p.1 = k)).map (fun p => p.2)

/-- Accumulator of the lamport-delta scan of lines 401-413. -/
structure SolScan where
  maxInc : ℤ
  solBefore : ℚ
  solAfter : ℚ
deriving DecidableEq, Repr

/-- The loop of raydium_decoder.py lines 405-413: largest strictly improving
post - pre lamport delta over the common index range, remembering the
pre/post balances (in SOL) of the account where the maximum was found. -/
def scan_sol_deltas (pre post : List ℤ) : SolScan :=
  (List.range (min pre.length post.length)).foldl
    (fun st i =>
      let p := pre.getD i 0
      let q := post.getD i 0
      let delta := q - p
      if st.maxInc < delta then
        { maxInc := delta
          solBefore := Rat.divInt p 1000000000
          solAfter := Rat.divInt q 1000000000 }
      else st)
    { maxInc := 0, solBefore := 0, solAfter := 0 }

/-- _calculate_balance_deltas (raydium_decoder.py lines 374-463).  Returns the
amounts dict together with the (possibly mutated) pool_info: the source
back-fills pool_info["token_mint"] in place during the token-delta loop. -/
def calculate_balance_deltas (meta : TxMeta) (poolInfo : PoolInfo) :
    Option (DeltaAmounts × PoolInfo) :=
  let preTokens := tokens_by_index meta.preTokenBalances
  let postTokens := tokens_by_index meta.postTokenBalances
  let scan := scan_sol_deltas meta.preBalances meta.postBalances
  let sol_delta : ℚ := Rat.divInt scan.maxInc 1000000000
  if sol_delta ≤ 0 then none
  else
    let token_mint := poolInfo.token_mint
    let tdState := postTokens.foldl
      (fun (st : ℚ × PoolInfo) kv =>
        if kv.2.mint = token_mint ∨ (token_mint = "" ∧ kv.2.mint ≠ WSOL_MINT) then
          let preAmt : ℚ :=
            match dict_get preTokens kv.1 with
            | some b => b.uiAmount
            | none => 0
          let delta := kv.2.uiAmount - preAmt
          if st.1 < delta then
            (delta,
             if st.2.token_mint = "" then { st.2 with token_mint := kv.2.mint }
             else st.2)
          else st
        else st)
      ((0 : ℚ), poolInfo)
    let lp_mint := poolInfo.lp_mint
    let lp_minted : ℚ :=
      if lp_mint = "" then 0
      else postTokens.foldl
        (fun acc kv =>
          if kv.2.mint = lp_mint then
            let preAmt : ℚ :=
              match dict_get preTokens kv.1 with
              | some b => b.uiAmount
              | none => 0
            let delta := kv.2.uiAmount - preAmt
            if 0 < delta then acc + delta else acc
          else acc)
        (0 : ℚ)
    some ({ sol_delta := sol_delta
            sol_before := scan.solBefore
            sol_after := scan.solAfter
            token_delta := tdState.1
            lp_minted := lp_minted }, tdState.2)

/-- The fallback of decode_raydium_transaction lines 100-109: keep the
primary extraction when it produced a pool_info, else try the
inner-instruction heuristic. -/
def pool_info_or_fallback (primary fallback : Option PoolInfo) : Option PoolInfo :=
  match primary with
  | some p => some p
  | none => fallback

/-- decode_raydium_transaction (raydium_decoder.py lines 46-162). -/
def decode_raydium_transaction (tx : RawTransaction) : Option LPAdditionInfo :=
  if tx.meta.err.isSome then none
  else if tx.accountKeys = [] then none
  else
    match find_raydium_instruction tx.instructions tx.meta with
    | (none, _) => none
    | (some rix, ixType) =>
      if ¬ (ixType = "initialize" ∨ ixType = "initialize2" ∨
            ixType = "deposit" ∨ ixType = "unknown_lp") then none
      else
        match pool_info_or_fallback
            (extract_pool_from_instruction rix tx.accountKeys ixType)
            (extract_pool_from_inner_instructions tx.meta) with
        | none => none
        | some poolInfo =>
          match calculate_balance_deltas tx.meta poolInfo with
          | none => none
          | some (amounts, poolInfo2) =>
            if amounts.sol_delta < Rat.divInt MIN_SOL_DELTA_LAMPORTS 1000000000 then
              none
            else
              some { pool_address := poolInfo2.pool_address
                     token_mint := poolInfo2.token_mint
                     quote_mint := poolInfo2.quote_mint
                     token_amount := amounts.token_delta
                     quote_amount_sol := amounts.sol_delta
                     lp_tokens_minted := amounts.lp_minted
                     liquidity_before_sol := amounts.sol_before
                     liquidity_after_sol := amounts.sol_after
                     is_pool_creation :=
                       ixType == "initialize" || ixType == "initialize2"
                     signature := tx.signatures.headD "" }

/-- The instruction resolved by step 3 of the decoder. -/
def resolved_instruction (tx : RawTransaction) : Option Instruction :=
  (find_raydium_instruction tx.instructions tx.meta).1

/-- The first decoded payload byte of the resolved instruction. -/
def resolved_discriminator (tx : RawTransaction) : Option ℕ :=
  (resolved_instruction tx).bind (fun ix => ix.dataBytes.bind List.head?)

/-- The largest positive lamport delta of the transaction, in SOL. -/
def max_sol_delta (tx : RawTransaction) : ℚ :=
  Rat.divInt (scan_sol_deltas tx.meta.preBalances tx.meta.postBalances).maxInc
    1000000000

/-- A concrete deposit transaction: the second account (the pool vault) gains
exactly 0.2 SOL; there are no token-balance records at all, so no non-quote
mint shows a positive increase. -/
def depositTxNoTokenDelta : RawTransaction :=
  { meta := { err := none
              preBalances := [1000000000, 500000000000]
              postBalances := [800000000, 500200000000]
              preTokenBalances := []
              postTokenBalances := []
              innerInstructions := [] }
    signatures := ["sigC10"]
    accountKeys := ["user", "vault", RAYDIUM_AMM_V4, "a3", "a4", "a5", "a6", "a7"]
    instructions := [{ programId := RAYDIUM_AMM_V4
                       dataBytes := some [3]
                       accounts := [0, 1, 2, 3, 4, 5, 6, 7] }] }

/-- A concrete deposit transaction whose largest lamport increase is exactly
100000000 lamports, i.e. exactly the 0.1 SOL noise floor. -/
def depositTxExactFloor : RawTransaction :=
  { meta := { err := none
              preBalances := [1000000000, 500000000000]
              postBalances := [880000000, 500100000000]
              preTokenBalances := []
              postTokenBalances := []
              innerInstructions := [] }
    signatures := ["sigExact"]
    accountKeys := ["user", "vault", RAYDIUM_AMM_V4, "a3", "a4", "a5", "a6", "a7"]
    instructions := [{ programId := RAYDIUM_AMM_V4
                       dataBytes := some [3]
                       accounts := [0, 1, 2, 3, 4, 5, 6, 7] }] }

/-- A concrete deposit transaction whose largest lamport increase is
50000000 lamports (0.05 SOL), strictly below the noise floor. -/
def depositTxBelowFloor : RawTransaction :=
  { meta := { err := none
              preBalances := [1000000000, 500000000000]
              postBalances := [930000000, 500050000000]
              preTokenBalances := []
              postTokenBalances := []
              innerInstructions := [] }
    signatures := ["sigBelow"]
    accountKeys := ["user", "vault", RAYDIUM_AMM_V4, "a3", "a4", "a5", "a6", "a7"]
    instructions := [{ programId := RAYDIUM_AMM_V4
                       dataBytes := some [3]
                       accounts := [0, 1, 2, 3, 4, 5, 6, 7] }] }

/-! ### Helper lemmas about the decoder -/

theorem calculate_balance_deltas_sol (meta : TxMeta) (p : PoolInfo)
    (a : DeltaAmounts) (p2 : PoolInfo)
    (h : calculate_balance_deltas meta p = some (a, p2)) :
    a.sol_delta =
      Rat.divInt (scan_sol_deltas meta.preBalances meta.postBalances).maxInc
        1000000000 ∧
    0 < a.sol_delta := by
  simp only [calculate_balance_deltas] at h
  split at h
  · exact absurd h (by simp)
  · next hpos =>
      simp only [Option.some.injEq, Prod.mk.injEq] at h
      obtain ⟨rfl, rfl⟩ := h.symm
      exact ⟨rfl, lt_of_not_le hpos⟩

theorem decode_some_spec (tx : RawTransaction) (f : LPAdditionInfo)
    (h : decode_raydium_transaction tx = some f) :
    f.quote_amount_sol = max_sol_delta tx ∧
    ¬ f.quote_amount_sol < Rat.divInt MIN_SOL_DELTA_LAMPORTS 1000000000 := by
  simp only [decode_raydium_transaction] at h
  split at h
  · exact absurd h (by simp)
  split at h
  · exact absurd h (by simp)
  split at h
  · exact absurd h (by simp)
  next rix ixType hfind =>
    split at h
    · exact absurd h (by simp)
    split at h
    · exact absurd h (by simp)
    next poolInfo hpool =>
      split at h
      · exact absurd h (by simp)
      next amounts poolInfo2 hcalc =>
        split at h
        · exact absurd h (by simp)
        next hfloor =>
          obtain rfl := (Option.some.injEq _ _).mp h.symm
          have hsol := calculate_balance_deltas_sol tx.meta poolInfo amounts
            poolInfo2 hcalc
          exact ⟨hsol.1, hfloor⟩

theorem find_raydium_instruction_some (instrs : List Instruction) (meta : TxMeta)
    (rix : Instruction) (t : String)
    (h : find_raydium_instruction instrs meta = (some rix, t)) :
    t = decode_instruction_type rix.dataBytes := by
  unfold find_raydium_instruction at h
  split at h
  · next ix hix =>
      simp only [Prod.mk.injEq, Option.some.injEq] at h
      obtain ⟨rfl, rfl⟩ := h
      rfl
  · split at h
    · next ix hix =>
        simp only [Prod.mk.injEq, Option.some.injEq] at h
        obtain ⟨rfl, rfl⟩ := h
        rfl
    · simp at h

theorem decode_instruction_type_initialize (db : Option (List ℕ)) :
    (decode_instruction_type db = "initialize" ↔ db.bind List.head? = some 0) ∧
    (decode_instruction_type db = "initialize2" ↔ db.bind List.head? = some 1) := by
  match db with
  | none => simp [decode_instruction_type]
  | some [] => simp [decode_instruction_type]
  | some (d :: rest) =>
    simp only [decode_instruction_type, Option.some_bind, List.head?_cons,
      Option.some.injEq]
    by_cases h0 : d = 0
    · subst h0; decide
    by_cases h1 : d = 1
    · subst h1; decide
    rw [if_neg h0, if_neg h1]
    by_cases h3 : d = 3
    · subst h3; decide
    rw [if_neg h3]
    by_cases h4 : d = 4
    · subst h4; decide
    rw [if_neg h4]
    by_cases h9 : d = 9
    · subst h9; decide
    rw [if_neg h9]
    exact ⟨⟨fun hs => absurd hs (by decide), fun hd => absurd hd h0⟩,
           ⟨fun hs => absurd hs (by decide), fun hd => absurd hd h1⟩⟩

/-! ### Claim theorems about the decoder -/

/-- Claim C1: whenever decode returns a fact, its quote_amount_sol is at
least the 0.1 SOL noise floor (hence strictly positive); any transaction
whose largest positive lamport delta converts to strictly below 0.1 SOL is
rejected; and a delta of exactly 0.1 SOL is accepted. -/
theorem decode_respects_noise_floor :
    (∀ tx f, decode_raydium_transaction tx = some f →
      Rat.divInt 1 10 ≤ f.quote_amount_sol ∧ 0 < f.quote_amount_sol) ∧
    (∀ tx, max_sol_delta tx < Rat.divInt 1 10 →
      decode_raydium_transaction tx = none) ∧
    (decode_raydium_transaction depositTxExactFloor).map
      LPAdditionInfo.quote_amount_sol = some (Rat.divInt 1 10) := by
  have hfloor : Rat.divInt MIN_SOL_DELTA_LAMPORTS 1000000000 = Rat.divInt 1 10 := by
    decide
  refine ⟨?_, ?_, by decide⟩
  · intro tx f h
    have hs := decode_some_spec tx f h
    rw [hfloor] at hs
    have hle := le_of_not_lt hs.2
    exact ⟨hle, lt_of_lt_of_le (by decide) hle⟩
  · intro tx hlt
    cases hdec : decode_raydium_transaction tx with
    | none => rfl
    | some f =>
      have hs := decode_some_spec tx f hdec
      rw [hfloor, hs.1] at hs
      exact absurd hlt hs.2

/-- Witness for C1 at concrete inputs: the exactly-at-floor deposit
transaction decodes to a fact whose quote amount satisfies the bound, and a
transaction with a 0.05 SOL maximum delta is rejected. -/
theorem decode_respects_noise_floor_witness :
    (Rat.divInt 1 10 ≤
      (LPAdditionInfo.mk "vault" "" WSOL_MINT 0 (Rat.divInt 1 10) 0
        500 (Rat.divInt 5001 10) false "sigExact").quote_amount_sol) ∧
    decode_raydium_transaction depositTxBelowFloor = none :=
  ⟨(decode_respects_noise_floor.1 depositTxExactFloor _ (by decide)).1,
   decode_respects_noise_floor.2.1 depositTxBelowFloor (by decide)⟩

/-- Counterexample to claim C3 as stated: the unlisted discriminator 2 on an
instruction with an empty account list — an account count that lies in no
LP-operation range — is still classified "unknown_lp", not "unknown": the
classifier never consults the account count. -/
theorem discriminator_table_counterexample :
    decode_instruction_type (Instruction.mk RAYDIUM_AMM_V4 (some [2]) []).dataBytes
        = "unknown_lp" ∧
    ¬ decode_instruction_type (Instruction.mk RAYDIUM_AMM_V4 (some [2]) []).dataBytes
        = "unknown" := by decide

/-- Claim C3 (amended): the discriminator is mapped through the fixed table
0→initialize, 1→initialize2, 3→deposit, 4→withdraw, 9→swap; every other
discriminator is classified "unknown_lp" unconditionally — independent of the
instruction's account list — and "unknown" arises exactly when the payload is
missing/undecodable or decodes to zero bytes. -/
theorem discriminator_table (ix : Instruction) :
    (decode_instruction_type ix.dataBytes = "unknown" ↔
      ix.dataBytes = none ∨ ix.dataBytes = some []) ∧
    (∀ d rest, ix.dataBytes = some (d :: rest) →
      decode_instruction_type ix.dataBytes =
        if d = 0 then "initialize" else if d = 1 then "initialize2"
        else if d = 3 then "deposit" else if d = 4 then "withdraw"
        else if d = 9 then "swap" else "unknown_lp") ∧
    (∀ pid accs, decode_instruction_type
        (Instruction.mk pid ix.dataBytes accs).dataBytes =
      decode_instruction_type ix.dataBytes) := by
  refine ⟨?_, ?_, fun pid accs => rfl⟩
  · match hdb : ix.dataBytes with
    | none => simp [decode_instruction_type]
    | some [] => simp [decode_instruction_type]
    | some (d :: rest) =>
      simp only [decode_instruction_type, Option.some.injEq, reduceCtorEq,
        List.cons_ne_self, or_self, iff_false]
      split
      · decide
      split
      · decide
      split
      · decide
      split
      · decide
      split
      · decide
      · decide
  · intro d rest hdb
    rw [hdb]
    rfl

/-- Witness for C3 (amended) at a concrete input: discriminator 9 maps
through the table. -/
theorem discriminator_table_witness :
    decode_instruction_type (Instruction.mk "" (some [9]) []).dataBytes =
      (if (9 : ℕ) = 0 then "initialize" else if (9 : ℕ) = 1 then "initialize2"
       else if (9 : ℕ) = 3 then "deposit" else if (9 : ℕ) = 4 then "withdraw"
       else if (9 : ℕ) = 9 then "swap" else "unknown_lp") :=
  (discriminator_table (Instruction.mk "" (some [9]) [])).2.1 9 [] rfl

/-- Claim C8: a returned fact has is_pool_creation = true exactly when the
resolved instruction's discriminator byte is 0 or 1. -/
theorem is_pool_creation_iff_discriminator (tx : RawTransaction)
    (f : LPAdditionInfo) (h : decode_raydium_transaction tx = some f) :
    f.is_pool_creation = true ↔
      (resolved_discriminator tx = some 0 ∨ resolved_discriminator tx = some 1) := by
  simp only [decode_raydium_transaction] at h
  split at h
  · exact absurd h (by simp)
  split at h
  · exact absurd h (by simp)
  split at h
  · exact absurd h (by simp)
  next rix ixType hfind =>
    have htype := find_raydium_instruction_some tx.instructions tx.meta rix
      ixType hfind
    have hres : resolved_discriminator tx = rix.dataBytes.bind List.head? := by
      simp only [resolved_discriminator, resolved_instruction, hfind,
        Option.some_bind]
    split at h
    · exact absurd h (by simp)
    split at h
    · exact absurd h (by simp)
    next poolInfo hpool =>
      split at h
      · exact absurd h (by simp)
      next amounts poolInfo2 hcalc =>
        split at h
        · exact absurd h (by simp)
        next hfloor =>
          obtain rfl := (Option.some.injEq _ _).mp h.symm
          have hini := decode_instruction_type_initialize rix.dataBytes
          simp only [hres, ← htype]
          constructor
          · intro hb
            simp only [Bool.or_eq_true] at hb
            rcases hb with hb1 | hb2
            · exact Or.inl (hini.1.mp (htype.symm.trans (eq_of_beq hb1)))
            · exact Or.inr (hini.2.mp (htype.symm.trans (eq_of_beq hb2)))
          · intro hd
            rcases hd with hd | hd
            · have hix : ixType = "initialize" := htype.trans (hini.1.mpr hd)
              rw [hix]
              decide
            · have hix : ixType = "initialize2" := htype.trans (hini.2.mpr hd)
              rw [hix]
              decide

/-- Witness for C8 at a concrete input: the deposit transaction decodes to a
fact with is_pool_creation = false, matching discriminator 3. -/
theorem is_pool_creation_iff_discriminator_witness :
    ¬ (LPAdditionInfo.mk "vault" "" WSOL_MINT 0 (Rat.divInt 1 5) 0 500
        (Rat.divInt 2501 5) false "sigC10").is_pool_creation = true :=
  fun hb =>
    ((is_pool_creation_iff_discriminator depositTxNoTokenDelta _
        (by decide)).mp hb).elim
      (fun h0 => by simp only [show resolved_discriminator depositTxNoTokenDelta =
          some 3 from by decide] at h0; exact absurd h0 (by decide))
      (fun h1 => by simp only [show resolved_discriminator depositTxNoTokenDelta =
          some 3 from by decide] at h1; exact absurd h1 (by decide))

/-- Claim C10: a concrete non-failed deposit transaction with no
token-balance records at all (so no positive increase for any non-quote
mint) decodes to a fact whose token_mint is the empty string. -/
theorem deposit_fact_empty_token_mint :
    depositTxNoTokenDelta.meta.err = none ∧
    resolved_discriminator depositTxNoTokenDelta = some 3 ∧
    depositTxNoTokenDelta.meta.postTokenBalances = [] ∧
    decode_raydium_transaction depositTxNoTokenDelta =
      some { pool_address := "vault"
             token_mint := ""
             quote_mint := WSOL_MINT
             token_amount := 0
             quote_amount_sol := Rat.divInt 1 5
             lp_tokens_minted := 0
             liquidity_before_sol := 500
             liquidity_after_sol := Rat.divInt 2501 5
             is_pool_creation := false
             signature := "sigC10" } := by decide


/-! ### Multi-signal tracker (src/journaltx/filters/signals.py) -/

/-- A momentum signal (signals.py lines 15-21). The free-form details dict
is carried by the source but never read by any decision logic, so it is
omitted.  Timestamps are integer seconds. -/
structure Signal where
  signal_type : String
  timestamp : ℤ
  pair : String
deriving DecidableEq, Repr

/-- SignalTracker state (signals.py lines 24-33): the rolling-window length
in minutes and the pair-keyed dict of signal lists.  The dict is modelled as
a total function defaulting to [] — add_signal initialises a missing key to
[] before using it, which is the same thing. -/
structure SignalTracker where
  window_minutes : ℤ
  signals : String → List Signal

/-- SignalTracker.add_signal (signals.py lines 35-68): keep only the stored
signals with s.timestamp > cutoff (cutoff = now - window), append the new
signal, store the list back, and return whether the retained signals carry
at least 2 distinct signal_type values.  The two datetime.now() calls of the
source (signal creation and pruning) are modelled as the single instant
now. -/
def add_signal (t : SignalTracker) (now : ℤ) (signal : Signal) :
    SignalTracker × Bool :=
  let pair := signal.pair
  let cutoff := now - 60 * t.window_minutes
  let kept := (t.signals pair).filter (fun s => cutoff < s.timestamp)
  let updated := kept ++ [signal]
  let uniqueTypes := (updated.map Signal.signal_type).dedup
  ({ t with signals := fun k => if k = pair then updated else t.signals k },
   decide (2 ≤ uniqueTypes.length))

/-- Modelled from the claim wording, for comparison with add_signal: remove
only the signals STRICTLY older than the cutoff instant, i.e. keep
s.timestamp ≥ cutoff. -/
def add_signal_claim (t : SignalTracker) (now : ℤ) (signal : Signal) :
    SignalTracker × Bool :=
  let pair := signal.pair
  let cutoff := now - 60 * t.window_minutes
  let kept := (t.signals pair).filter (fun s => cutoff ≤ s.timestamp)
  let updated := kept ++ [signal]
  let uniqueTypes := (updated.map Signal.signal_type).dedup
  ({ t with signals := fun k => if k = pair then updated else t.signals k },
   decide (2 ≤ uniqueTypes.length))

/-- A tracker holding one volume_spike signal for pair X/SOL at time 0. -/
def boundaryTracker : SignalTracker :=
  { window_minutes := 30
    signals := fun k => if k = "X/SOL" then [⟨"volume_spike", 0, "X/SOL"⟩] else [] }

/-- Sequential insertion driver: run add_signal over a list of
(now, signal) events, collecting each returned gate verdict. -/
def add_signals : SignalTracker → List (ℤ × Signal) → SignalTracker × List Bool
  | t, [] => (t, [])
  | t, ev :: rest =>
    ((add_signals (add_signal t ev.1 ev.2).1 rest).1,
     (add_signal t ev.1 ev.2).2 :: (add_signals (add_signal t ev.1 ev.2).1 rest).2)

/-- A list whose members are all equal to one value has at most one distinct
element. -/
theorem all_eq_dedup_length_le_one (l : List String) (a : String)
    (h : ∀ x ∈ l, x = a) : l.dedup.length ≤ 1 := by
  have hsub : ∀ x ∈ l.dedup, x = a := fun x hx => h x (List.mem_dedup.mp hx)
  have hnd : l.dedup.Nodup := l.nodup_dedup
  match hd : l.dedup with
  | [] => simp
  | [x] => simp
  | x :: y :: rest =>
    rw [hd] at hsub hnd
    have hx := hsub x (by simp)
    have hy := hsub y (by simp)
    subst hx
    obtain ⟨hxmem, -⟩ := List.nodup_cons.mp hnd
    exact absurd (show x ∈ y :: rest from by simp [hy]) hxmem

/-- Characterisation of one add_signal call: the stored list becomes the
old list filtered to timestamps strictly inside the window, plus the new
signal, and the verdict is the distinct-type count test on that list. -/
theorem add_signal_gate (t : SignalTracker) (now : ℤ) (sig : Signal) :
    ((add_signal t now sig).1).signals sig.pair =
      (t.signals sig.pair).filter
        (fun s => now - 60 * t.window_minutes < s.timestamp) ++ [sig] ∧
    (add_signal t now sig).2 =
      decide (2 ≤ ((((t.signals sig.pair).filter
        (fun s => now - 60 * t.window_minutes < s.timestamp)) ++ [sig]).map
          Signal.signal_type).dedup.length) := by
  constructor
  · simp [add_signal]
  · rfl

/-- If every stored signal for the pair and the new signal share one
signal_type, the verdict is false. -/
theorem add_signal_same_type_false (t : SignalTracker) (now : ℤ) (sig : Signal)
    (h : ∀ s ∈ t.signals sig.pair, s.signal_type = sig.signal_type) :
    (add_signal t now sig).2 = false := by
  rw [(add_signal_gate t now sig).2]
  refine decide_eq_false ?_
  intro h2
  have hall : ∀ x ∈ ((((t.signals sig.pair).filter
      (fun s => now - 60 * t.window_minutes < s.timestamp)) ++ [sig]).map
        Signal.signal_type), x = sig.signal_type := by
    intro x hx
    simp only [List.map_append, List.mem_append, List.map_cons, List.map_nil,
      List.mem_singleton, List.mem_map] at hx
    rcases hx with ⟨s, hs, rfl⟩ | rfl
    · exact h s (List.mem_of_mem_filter hs)
    · rfl
  have := all_eq_dedup_length_le_one _ _ hall
  omega

/-- Same-type preservation of the stored list under add_signal. -/
theorem add_signal_same_type_preserved (t : SignalTracker) (now : ℤ) (sig : Signal)
    (h : ∀ s ∈ t.signals sig.pair, s.signal_type = sig.signal_type) :
    ∀ s ∈ ((add_signal t now sig).1).signals sig.pair,
      s.signal_type = sig.signal_type := by
  intro s hs
  rw [(add_signal_gate t now sig).1] at hs
  rcases List.mem_append.mp hs with hs | hs
  · exact h s (List.mem_of_mem_filter hs)
  · rw [List.mem_singleton.mp hs]

/-- For signals of another pair, add_signal leaves the stored list alone. -/
theorem add_signal_other_pair (t : SignalTracker) (now : ℤ) (sig : Signal)
    (k : String) (hk : k ≠ sig.pair) :
    ((add_signal t now sig).1).signals k = t.signals k := by
  simp [add_signal, hk]

/-- Claim C2 (amended): add_signal retains exactly the stored signals with
timestamp strictly newer than now - window (so a signal exactly
window_minutes old is dropped), appends the new signal, and returns true iff
the retained list carries at least 2 distinct signal_type values; hence any
sequence of insertions all carrying one signal_type (over a pair whose
stored signals already all carry that type) only ever returns false. -/
theorem signal_gate_distinct_types :
    (∀ (t : SignalTracker) (now : ℤ) (sig : Signal),
      ((add_signal t now sig).1).signals sig.pair =
        (t.signals sig.pair).filter
          (fun s => now - 60 * t.window_minutes < s.timestamp) ++ [sig] ∧
      (add_signal t now sig).2 =
        decide (2 ≤ ((((t.signals sig.pair).filter
          (fun s => now - 60 * t.window_minutes < s.timestamp)) ++ [sig]).map
            Signal.signal_type).dedup.length)) ∧
    (∀ (pair ty : String) (events : List (ℤ × Signal)) (t : SignalTracker),
      (∀ s ∈ t.signals pair, s.signal_type = ty) →
      (∀ ev ∈ events, ev.2.pair = pair ∧ ev.2.signal_type = ty) →
      ∀ b ∈ (add_signals t events).2, b = false) := by
  refine ⟨add_signal_gate, ?_⟩
  intro pair ty events
  induction events with
  | nil => intro t _ _ b hb; simp [add_signals] at hb
  | cons ev rest ih =>
    intro t hstore hev b hb
    obtain ⟨hpair, hty⟩ := hev ev (List.mem_cons_self ev rest)
    have hstore2 : ∀ s ∈ t.signals ev.2.pair, s.signal_type = ev.2.signal_type := by
      rw [hpair, hty]; exact hstore
    simp only [add_signals, List.mem_cons] at hb
    rcases hb with rfl | hb
    · exact add_signal_same_type_false t ev.1 ev.2 hstore2
    · refine ih ((add_signal t ev.1 ev.2).1) ?_
        (fun e he => hev e (List.mem_cons_of_mem ev he)) b hb
      intro s hs
      rw [← hty]
      have := add_signal_same_type_preserved t ev.1 ev.2 hstore2
      rw [hpair] at this
      exact this s hs

/-- Witness for C2 (amended): two same-typed lp_add insertions for one pair
on an empty tracker both return false. -/
theorem signal_gate_distinct_types_witness :
    ((add_signals ⟨30, fun _ => []⟩
      [(0, ⟨"lp_add", 0, "A/SOL"⟩), (60, ⟨"lp_add", 60, "A/SOL"⟩)]).2).getD 0 true
        = false := by
  have h := signal_gate_distinct_types.2 "A/SOL" "lp_add"
    [(0, ⟨"lp_add", 0, "A/SOL"⟩), (60, ⟨"lp_add", 60, "A/SOL"⟩)]
    ⟨30, fun _ => []⟩ (by intro s hs; simp at hs) (by decide)
  exact h _ (by decide)

/-- Counterexample to claim C2 as stated: a stored signal exactly
window_minutes old (timestamp = now - window) is dropped by the source
(which keeps only timestamp > cutoff), while the claim ("older than
window_minutes") would retain it; on the boundary tracker the source gate
answers false where the claim predicts true. -/
theorem signal_gate_window_counterexample :
    (add_signal boundaryTracker 1800 ⟨"lp_add", 1800, "X/SOL"⟩).2 = false ∧
    (add_signal_claim boundaryTracker 1800 ⟨"lp_add", 1800, "X/SOL"⟩).2 = true := by
  decide



/-! ### Early-stage filter gates (src/journaltx/filters/early_meme.py) -/

/-- Python "sep in s" over the character list of a string. -/
def py_contains (l : List Char) (c : Char) : Bool :=
  l.any (fun x => x = c)

/-- Python s.split(sep) for a one-character separator, over character
lists. -/
def py_split_on (sep : Char) : List Char → List (List Char)
  | [] => [[]]
  | c :: rest =>
    if c = sep then [] :: py_split_on sep rest
    else
      match py_split_on sep rest with
      | h :: t => (c :: h) :: t
      | [] => [[c]]

/-- Python s.upper() over character lists. -/
def py_upper (l : List Char) : List Char :=
  l.map Char.toUpper



/-- Rule 3 priority classification (early_meme.py lines 180-191). -/
def priority_tag (pair_age : ℚ) : String :=
  if pair_age ≤ Rat.divInt 1 2 then "HIGH"
  else if pair_age ≤ 2 then "MEDIUM"
  else "LOW"

/-- Rule 3 age status tag (early_meme.py lines 180-191). -/
def age_status_tag (pair_age preferred_pair_age_hours : ℚ) : String :=
  if pair_age ≤ Rat.divInt 1 2 then "🔥 HIGH (golden window)"
  else if pair_age ≤ 2 then "⚡ MEDIUM (early discovery)"
  else if pair_age ≤ preferred_pair_age_hours then "✅ LOW (sweet spot)"
  else "✅ VALID (late window)"

/-- The dict returned by get_pair_market_data, as read back by
check_early_stage_opportunity: only the keys the gate pipeline reads are
modelled; a key the fetch did not populate is none (the source reads
pair_age_hours with default 999 and market_cap with default 0). -/
structure MarketData where
  legacy_meme : Bool := false
  pair_age_hours : Option ℚ := none
  market_cap : Option ℚ := none
deriving DecidableEq, Repr

/-- One entry of details["checks"]: the rule name and its status tag.  The
human-readable reason text (float formatting) is elided. -/
structure CheckEntry where
  rule : String
  status : String
deriving DecidableEq, Repr

/-- The decision triple (should_alert, should_log, details) returned by
check_early_stage_opportunity, with the details keys the callers read. -/
structure FilterDecision where
  should_alert : Bool
  should_log : Bool
  checks : List CheckEntry
  priority : Option String := none
  ignition_pass : Option Bool := none
deriving DecidableEq, Repr

/-- check_early_stage_opportunity (early_meme.py lines 90-326).

The DexScreener fetch (get_pair_market_data, an HTTP call) is an input
parameter; the module-level signal tracker is threaded explicitly; "now" is
the integer instant used for the created Signal and for window pruning.
Parameters the source accepts but never reads inside the gate logic
(max_pair_age_hours, signal_window_minutes — the tracker keeps its own
window — and legacy_memes, which is consumed inside get_pair_market_data)
are not modelled. -/
def check_early_stage_opportunity
    (pair : String)
    (lp_added_sol lp_before_sol : ℚ)
    (preferred_pair_age_hours : ℚ)
    (near_zero_baseline_sol : ℚ)
    (hard_reject_baseline_liquidity : ℚ)
    (hard_reject_pair_age_hours : ℚ)
    (hard_reject_market_cap : ℚ)
    (min_lp_ignite_sol : ℚ)
    (is_new_pool : Bool)
    (require_multi_signal : Bool)
    (market_data : Option MarketData)
    (tracker : SignalTracker)
    (now : ℤ) :
    FilterDecision × SignalTracker :=
  if ¬ py_contains pair.data '/' then
    ({ should_alert := false, should_log := true
       checks := [⟨"Pair format", "FAIL"⟩] }, tracker)
  else if py_upper ((py_split_on '/' pair.data).getD 1 []) ≠ "SOL".data then
    ({ should_alert := false, should_log := true
       checks := [⟨"Pair type", "FAIL"⟩] }, tracker)
  else
    match market_data with
    | none =>
      ({ should_alert := false, should_log := true
         checks := [⟨"Pair type", "PASS"⟩, ⟨"Market data", "SKIP"⟩] }, tracker)
    | some md =>
      if md.legacy_meme then
        ({ should_alert := false, should_log := true
           checks := [⟨"Pair type", "PASS"⟩, ⟨"Legacy meme", "BLOCK"⟩] }, tracker)
      else
        if hard_reject_pair_age_hours < md.pair_age_hours.getD 999 then
          ({ should_alert := false, should_log := true
             checks := [⟨"Pair type", "PASS"⟩,
                        ⟨"Pair age (hard reject)", "BLOCK"⟩] }, tracker)
        else
          if hard_reject_market_cap ≤ md.market_cap.getD 0 then
            ({ should_alert := false, should_log := true
               checks := [⟨"Pair type", "PASS"⟩,
                          ⟨"Pair age", age_status_tag (md.pair_age_hours.getD 999)
                            preferred_pair_age_hours⟩,
                          ⟨"Market cap (hard reject)", "BLOCK"⟩]
               priority := some (priority_tag (md.pair_age_hours.getD 999)) }, tracker)
          else
            if ¬ (lp_before_sol ≤ hard_reject_baseline_liquidity ∧
                  min_lp_ignite_sol ≤ lp_added_sol) then
              ({ should_alert := false, should_log := true
                 checks := [⟨"Pair type", "PASS"⟩,
                            ⟨"Pair age", age_status_tag (md.pair_age_hours.getD 999)
                              preferred_pair_age_hours⟩,
                            ⟨"Market cap", "PASS"⟩, ⟨"LP ignition", "FAIL"⟩]
                 priority := some (priority_tag (md.pair_age_hours.getD 999))
                 ignition_pass := some false }, tracker)
            else
              if is_new_pool ∨ (lp_before_sol ≤ near_zero_baseline_sol ∧
                  md.pair_age_hours.getD 999 ≤ 1) then
                ({ should_alert := true, should_log := true
                   checks := [⟨"Pair type", "PASS"⟩,
                              ⟨"Pair age", age_status_tag (md.pair_age_hours.getD 999)
                                preferred_pair_age_hours⟩,
                              ⟨"Market cap", "PASS"⟩, ⟨"LP ignition", "✅ PASS"⟩,
                              ⟨"Multi-signal", "✅ BYPASS"⟩, ⟨"FINAL", "🚨 ALERT"⟩]
                   priority := some (priority_tag (md.pair_age_hours.getD 999))
                   ignition_pass := some true }, tracker)
              else if ¬ require_multi_signal then
                ({ should_alert := true, should_log := true
                   checks := [⟨"Pair type", "PASS"⟩,
                              ⟨"Pair age", age_status_tag (md.pair_age_hours.getD 999)
                                preferred_pair_age_hours⟩,
                              ⟨"Market cap", "PASS"⟩, ⟨"LP ignition", "✅ PASS"⟩,
                              ⟨"Multi-signal", "✅ DISABLED"⟩, ⟨"FINAL", "🚨 ALERT"⟩]
                   priority := some (priority_tag (md.pair_age_hours.getD 999))
                   ignition_pass := some true }, tracker)
              else
                if (add_signal tracker now ⟨"lp_add", now, pair⟩).2 then
                  ({ should_alert := true, should_log := true
                     checks := [⟨"Pair type", "PASS"⟩,
                                ⟨"Pair age", age_status_tag (md.pair_age_hours.getD 999)
                                  preferred_pair_age_hours⟩,
                                ⟨"Market cap", "PASS"⟩, ⟨"LP ignition", "✅ PASS"⟩,
                                ⟨"Multi-signal", "✅ PASS"⟩, ⟨"FINAL", "🚨 ALERT"⟩]
                     priority := some (priority_tag (md.pair_age_hours.getD 999))
                     ignition_pass := some true },
                   (add_signal tracker now ⟨"lp_add", now, pair⟩).1)
                else
                  ({ should_alert := false, should_log := true
                     checks := [⟨"Pair type", "PASS"⟩,
                                ⟨"Pair age", age_status_tag (md.pair_age_hours.getD 999)
                                  preferred_pair_age_hours⟩,
                                ⟨"Market cap", "PASS"⟩, ⟨"LP ignition", "✅ PASS"⟩,
                                ⟨"Multi-signal", "WAIT"⟩]
                     priority := some (priority_tag (md.pair_age_hours.getD 999))
                     ignition_pass := some true },
                   (add_signal tracker now ⟨"lp_add", now, pair⟩).1)



/-- Claim C5: in an evaluation where gates 1-5 all pass, gate 6 is bypassed
— should_alert = true with the signal window left untouched — exactly when
is_new_pool is true, or lp_before ≤ near_zero_baseline with pair age ≤ 1
hour, or multi-signal is globally disabled; in every other case the lp_add
signal is registered in the rolling window and should_alert is true iff the
window then holds at least 2 distinct signal types, a false verdict leaving
a "Multi-signal"/"WAIT" audit entry. -/
theorem multi_signal_gate_bypass
    (pair : String) (lp_added lp_before : ℚ)
    (preferred near_zero hr_base hr_age hr_mcap min_ignite : ℚ)
    (is_new_pool require_multi : Bool)
    (md : MarketData) (tracker : SignalTracker) (now : ℤ)
    (res : FilterDecision × SignalTracker)
    (hres : check_early_stage_opportunity pair lp_added lp_before preferred
      near_zero hr_base hr_age hr_mcap min_ignite is_new_pool require_multi
      (some md) tracker now = res)
    (h1 : py_contains pair.data '/' = true)
    (h2 : py_upper ((py_split_on '/' pair.data).getD 1 []) = "SOL".data)
    (h3 : md.legacy_meme = false)
    (h4 : md.pair_age_hours.getD 999 ≤ hr_age)
    (h5 : md.market_cap.getD 0 < hr_mcap)
    (h6 : lp_before ≤ hr_base)
    (h7 : min_ignite ≤ lp_added) :
    ((is_new_pool = true ∨
        (lp_before ≤ near_zero ∧ md.pair_age_hours.getD 999 ≤ 1) ∨
        require_multi = false) →
      res.1.should_alert = true ∧ res.2 = tracker) ∧
    (¬ (is_new_pool = true ∨
        (lp_before ≤ near_zero ∧ md.pair_age_hours.getD 999 ≤ 1) ∨
        require_multi = false) →
      res.2 = (add_signal tracker now ⟨"lp_add", now, pair⟩).1 ∧
      res.1.should_alert = (add_signal tracker now ⟨"lp_add", now, pair⟩).2 ∧
      res.1.should_alert = decide (2 ≤ (((tracker.signals pair).filter
        (fun (s : Signal) => now - 60 * tracker.window_minutes < s.timestamp) ++
        [Signal.mk "lp_add" now pair]).map Signal.signal_type).dedup.length) ∧
      (res.1.should_alert = false →
        CheckEntry.mk "Multi-signal" "WAIT" ∈ res.1.checks)) := by
  subst hres
  simp only [check_early_stage_opportunity]
  rw [if_neg (not_not_intro h1), if_neg (not_not_intro h2),
    if_neg (by simp [h3]), if_neg (not_lt.mpr h4), if_neg (not_le.mpr h5),
    if_neg (not_not_intro ⟨h6, h7⟩)]
  constructor
  · intro hby
    rcases hby with hnp | hbirth | hrm
    · rw [if_pos (Or.inl hnp)]
      exact ⟨rfl, rfl⟩
    · rw [if_pos (Or.inr hbirth)]
      exact ⟨rfl, rfl⟩
    · by_cases hc : (is_new_pool = true ∨
        (lp_before ≤ near_zero ∧ md.pair_age_hours.getD 999 ≤ 1))
      · rw [if_pos hc]
        exact ⟨rfl, rfl⟩
      · rw [if_neg hc, if_pos (show ¬ require_multi = true from by simp [hrm])]
        exact ⟨rfl, rfl⟩
  · intro hno
    have hc1 : ¬ (is_new_pool = true ∨
        (lp_before ≤ near_zero ∧ md.pair_age_hours.getD 999 ≤ 1)) :=
      fun h => hno (h.elim Or.inl (fun hb => Or.inr (Or.inl hb)))
    have hrm : require_multi = true := by
      cases hb : require_multi
      · exact absurd (Or.inr (Or.inr hb)) hno
      · rfl
    rw [if_neg hc1, if_neg (not_not_intro hrm)]
    by_cases hadd : (add_signal tracker now ⟨"lp_add", now, pair⟩).2 = true
    · rw [if_pos hadd]
      refine ⟨rfl, hadd.symm, ?_, ?_⟩
      · exact hadd.symm.trans
          ((add_signal_gate tracker now ⟨"lp_add", now, pair⟩).2)
      · intro hfalse
        simp at hfalse
    · have hf : (add_signal tracker now ⟨"lp_add", now, pair⟩).2 = false := by
        revert hadd
        cases (add_signal tracker now ⟨"lp_add", now, pair⟩).2 <;> simp
      rw [if_neg hadd]
      refine ⟨rfl, hf.symm, ?_, ?_⟩
      · exact hf.symm.trans
          ((add_signal_gate tracker now ⟨"lp_add", now, pair⟩).2)
      · intro _
        simp

/-- Witness for C5 at concrete inputs: a new-pool evaluation passing gates
1-5 bypasses gate 6 with the tracker untouched. -/
theorem multi_signal_gate_bypass_witness :
    (check_early_stage_opportunity "ABC/SOL" 500 3 6 10 20 24 20000000 300
        true true
        (some { legacy_meme := false, pair_age_hours := some (Rat.divInt 1 5),
                market_cap := some 100000 })
        ⟨30, fun _ => []⟩ 0).1.should_alert = true :=
  ((multi_signal_gate_bypass "ABC/SOL" 500 3 6 10 20 24 20000000 300
      true true
      { legacy_meme := false, pair_age_hours := some (Rat.divInt 1 5),
        market_cap := some 100000 }
      ⟨30, fun _ => []⟩ 0 _ rfl (by decide) (by decide) rfl (by decide)
      (by decide) (by decide) (by decide)).1 (Or.inl rfl)).1



/-! ### Ingestion loop reconnect state (src/scripts/listen.py) -/

/-- The reconnect-delay cap, self.max_reconnect_delay (listen.py line 95). -/
def MAX_RECONNECT_DELAY : ℕ := 60

/-- The three events that assign self.reconnect_delay:
connectSuccess — the websocket connected (listen.py line 304);
rateLimit — an RPC error frame with the rate-limit code (line 157);
backoff — the loop tail after any connection failure or close (line 337). -/
inductive ConnEvent
  | connectSuccess
  | rateLimit
  | backoff
deriving DecidableEq, Repr

/-- The assignment each event performs on the delay. -/
def reconnect_step (delay : ℕ) : ConnEvent → ℕ
  | ConnEvent.connectSuccess => 1
  | ConnEvent.rateLimit => 60
  | ConnEvent.backoff => min (delay * 2) MAX_RECONNECT_DELAY

/-- The delay after a sequence of events, starting from the initial 1 second
(listen.py line 94). -/
def reconnect_delay_after (events : List ConnEvent) : ℕ :=
  events.foldl reconnect_step 1

theorem reconnect_backoff_pow (k : ℕ) :
    ∀ d, 1 ≤ d → d ≤ 60 →
      List.foldl reconnect_step d (List.replicate k ConnEvent.backoff) =
        min (d * 2 ^ k) 60 := by
  induction k with
  | zero =>
    intro d h1 h60
    simp [min_eq_left h60]
  | succ k ih =>
    intro d h1 h60
    rw [List.replicate_succ, List.foldl_cons,
      show reconnect_step d ConnEvent.backoff = min (d * 2) 60 from rfl,
      ih (min (d * 2) 60) (by omega) (by omega)]
    have h2k : (1 : ℕ) ≤ 2 ^ k := Nat.one_le_two_pow
    rcases le_or_lt (d * 2) 60 with hle | hlt
    · rw [min_eq_left hle]
      congr 1
      ring
    · rw [min_eq_right hlt.le]
      have hL : min (60 * 2 ^ k) 60 = 60 :=
        min_eq_right (le_mul_of_one_le_right (by omega) h2k)
      have hR : min (d * 2 ^ (k + 1)) 60 = 60 := by
        refine min_eq_right ?_
        have he : d * 2 ^ (k + 1) = d * 2 * 2 ^ k := by ring
        rw [he]
        exact le_trans hlt.le (le_mul_of_one_le_right (by omega) h2k)
      rw [hL, hR]

theorem reconnect_foldl_in_range (events : List ConnEvent) :
    ∀ d, 1 ≤ d → d ≤ 60 →
      1 ≤ List.foldl reconnect_step d events ∧
      List.foldl reconnect_step d events ≤ 60 := by
  induction events with
  | nil => intro d h1 h60; exact ⟨h1, h60⟩
  | cons e rest ih =>
    intro d h1 h60
    rw [List.foldl_cons]
    cases e with
    | connectSuccess => exact ih 1 (by omega) (by omega)
    | rateLimit => exact ih 60 (by omega) (by omega)
    | backoff =>
      exact ih (min (d * 2) MAX_RECONNECT_DELAY)
        (le_min (by omega) (by norm_num [MAX_RECONNECT_DELAY]))
        (min_le_right _ _)

/-- Claim C6: the reconnect delay starts at 1 s, doubles (capped at 60) on
each backoff, resets to 1 on every successful connection, jumps straight to
60 on a rate-limit frame, and stays within [1, 60] in every reachable
state; k consecutive backoffs from the initial state give min (2^k) 60. -/
theorem reconnect_delay_discipline :
    (∀ d, reconnect_step d ConnEvent.connectSuccess = 1) ∧
    (∀ d, reconnect_step d ConnEvent.rateLimit = 60) ∧
    (∀ d, reconnect_step d ConnEvent.backoff = min (d * 2) 60) ∧
    (∀ k, reconnect_delay_after (List.replicate k ConnEvent.backoff) =
      min (2 ^ k) 60) ∧
    (∀ events, 1 ≤ reconnect_delay_after events ∧
      reconnect_delay_after events ≤ 60) := by
  refine ⟨fun d => rfl, fun d => rfl, fun d => rfl, ?_, ?_⟩
  · intro k
    have h := reconnect_backoff_pow k 1 (le_refl 1) (by omega)
    rw [reconnect_delay_after, h, one_mul]
  · intro events
    exact reconnect_foldl_in_range events 1 (le_refl 1) (by omega)

/-! ### Signature dedup cache (src/scripts/listen.py lines 194-205) -/

/-- self.max_cache_size (listen.py line 103). -/
def MAX_CACHE_SIZE : ℕ := 1000

/-- The dedup step of process_message: a known signature stops handling
before any fetch or decode (returns the cache unchanged with false);
otherwise the signature is added and, if the cache has outgrown its
capacity, a batch of 100 entries — the first 100 the set enumerates — is
discarded before handling continues (true).  The Python set is modelled as
its enumeration-ordered list of distinct elements, with the new element
appearing after the surviving old ones. -/
def process_signature (cache : List String) (sig : String) :
    List String × Bool :=
  if sig ∈ cache then (cache, false)
  else
    (if MAX_CACHE_SIZE < (cache ++ [sig]).length then (cache ++ [sig]).drop 100
     else cache ++ [sig], true)

/-- The cache after a sequence of incoming signatures. -/
def process_signatures (cache : List String) (sigs : List String) : List String :=
  sigs.foldl (fun c s => (process_signature c s).1) cache

theorem process_signature_bound (cache : List String) (sig : String)
    (h : cache.length ≤ MAX_CACHE_SIZE) :
    (process_signature cache sig).1.length ≤ MAX_CACHE_SIZE := by
  unfold process_signature
  split
  · exact h
  · split
    · next h2 =>
        simp only [List.length_drop, List.length_append,
          List.length_singleton]
        simp only [MAX_CACHE_SIZE] at *
        omega
    · next h2 =>
        simp only [List.length_append, List.length_singleton] at h2 ⊢
        omega

theorem process_signatures_bounded (sigs : List String) :
    ∀ cache, cache.length ≤ MAX_CACHE_SIZE →
      (process_signatures cache sigs).length ≤ MAX_CACHE_SIZE := by
  induction sigs with
  | nil => intro cache h; exact h
  | cons s rest ih =>
    intro cache h
    rw [process_signatures, List.foldl_cons]
    exact ih _ (process_signature_bound cache s h)

/-- Claim C7: a signature already present in the dedup cache stops message
handling (no fetch/decode) and leaves the cache unchanged; a new signature
is inserted, a fixed batch of 100 is evicted exactly when the insertion
pushes the size past the fixed capacity 1000, and consequently the cache
size never exceeds 1000 over any sequence of messages started from the
empty cache. -/
theorem dedup_cache_discipline :
    (∀ cache sig, sig ∈ cache → process_signature cache sig = (cache, false)) ∧
    (∀ cache sig, sig ∉ cache →
      (process_signature cache sig).2 = true ∧
      (process_signature cache sig).1 =
        (if MAX_CACHE_SIZE < cache.length + 1 then (cache ++ [sig]).drop 100
         else cache ++ [sig])) ∧
    (∀ sigs, (process_signatures [] sigs).length ≤ MAX_CACHE_SIZE) := by
  refine ⟨?_, ?_, ?_⟩
  · intro cache sig h
    simp [process_signature, h]
  · intro cache sig h
    refine ⟨by simp [process_signature, h], ?_⟩
    simp [process_signature, h, List.length_append]
  · intro sigs
    exact process_signatures_bounded sigs [] (by simp [MAX_CACHE_SIZE])

/-- Witness for C7 at concrete inputs: a duplicate signature is skipped
with the cache unchanged, and a fresh signature is processed. -/
theorem dedup_cache_discipline_witness :
    process_signature ["a"] "a" = (["a"], false) ∧
    (process_signature ["a"] "b").2 = true :=
  ⟨dedup_cache_discipline.1 ["a"] "a" (by decide),
   (dedup_cache_discipline.2.1 ["a"] "b" (by decide)).1⟩



/-! ### Full-transaction fetch retries
(src/journaltx/ingest/quicknode/transaction_parser.py lines 86-150) -/

/-- What one attempt of get_transaction observes: an RPC-level error field,
a usable result, a null result (transaction not yet available), or a raised
transport exception — the source treats the three failure modes
identically: sleep 0.5 s and retry while attempts remain, else give up
with None. -/
inductive FetchOutcome
  | rpcError
  | resultOk (result : String)
  | resultNull
  | exn
deriving DecidableEq, Repr

/-- The usable result of an attempt, if any. -/
def FetchOutcome.ok? : FetchOutcome → Option String
  | FetchOutcome.resultOk r => some r
  | _ => none

/-- The fixed inter-attempt sleep, time.sleep(0.5). -/
def RETRY_SLEEP : ℚ := Rat.divInt 1 2

/-- The `for attempt in range(retries)` loop of get_transaction, returning
(result, attempts made, sleeps performed in order).  The attempt outcomes
are supplied by the oracle function. -/
def get_transaction_loop (outcomes : ℕ → FetchOutcome) (retries attempt : ℕ)
    (sleeps : List ℚ) : Option String × ℕ × List ℚ :=
  if attempt < retries then
    match (outcomes attempt).ok? with
    | some r => (some r, attempt + 1, sleeps)
    | none =>
      if attempt < retries - 1 then
        get_transaction_loop outcomes retries (attempt + 1)
          (sleeps ++ [RETRY_SLEEP])
      else (none, attempt + 1, sleeps)
  else (none, attempt, sleeps)
termination_by retries - attempt

/-- get_transaction with its default retries = 3. -/
def get_transaction (outcomes : ℕ → FetchOutcome) (retries : ℕ) :
    Option String × ℕ × List ℚ :=
  get_transaction_loop outcomes retries 0 []

/-- Claim C9: with the fixed bound of 3 attempts the fetch makes at most 3
attempts, sleeps exactly 0.5 s between consecutive attempts (one fewer
sleep than attempts), and — whichever failure mode each attempt hits — when
no attempt yields a result it returns None after exactly 3 attempts and 2
sleeps, instead of raising. -/
theorem fetch_retry_bounded (outcomes : ℕ → FetchOutcome) :
    (get_transaction outcomes 3).2.1 ≤ 3 ∧
    (get_transaction outcomes 3).2.2.length + 1 =
      (get_transaction outcomes 3).2.1 ∧
    (∀ x ∈ (get_transaction outcomes 3).2.2, x = RETRY_SLEEP) ∧
    ((∀ k, k < 3 → (outcomes k).ok? = none) →
      (get_transaction outcomes 3).1 = none ∧
      (get_transaction outcomes 3).2.1 = 3 ∧
      (get_transaction outcomes 3).2.2 = [RETRY_SLEEP, RETRY_SLEEP]) := by
  have e3 : ∀ a s, get_transaction_loop outcomes 3 a s =
      if a < 3 then
        match (outcomes a).ok? with
        | some r => (some r, a + 1, s)
        | none =>
          if a < 2 then
            get_transaction_loop outcomes 3 (a + 1) (s ++ [RETRY_SLEEP])
          else (none, a + 1, s)
      else (none, a, s) := by
    intro a s
    rw [get_transaction_loop]
  rcases h0 : (outcomes 0).ok? with _ | r0
  · rcases h1 : (outcomes 1).ok? with _ | r1
    · rcases h2 : (outcomes 2).ok? with _ | r2
      · have E : get_transaction outcomes 3 =
            (none, 3, [RETRY_SLEEP, RETRY_SLEEP]) := by
          rw [get_transaction, e3 0, h0]
          norm_num
          rw [e3 1, h1]
          norm_num
          rw [e3 2, h2]
          norm_num
        rw [E]
        refine ⟨by norm_num, by norm_num, ?_, fun _ => ⟨rfl, rfl, rfl⟩⟩
        intro x hx
        simp at hx
        exact hx
      · have E : get_transaction outcomes 3 = (some r2, 3, [RETRY_SLEEP, RETRY_SLEEP]) := by
          rw [get_transaction, e3 0, h0]
          norm_num
          rw [e3 1, h1]
          norm_num
          rw [e3 2, h2]
          norm_num
        rw [E]
        refine ⟨by norm_num, by norm_num, ?_, ?_⟩
        · intro x hx
          simp at hx
          exact hx
        · intro hfail
          exact absurd (hfail 2 (by norm_num)) (by simp [h2])
    · have E : get_transaction outcomes 3 = (some r1, 2, [RETRY_SLEEP]) := by
        rw [get_transaction, e3 0, h0]
        norm_num
        rw [e3 1, h1]
        norm_num
      rw [E]
      refine ⟨by norm_num, by norm_num, ?_, ?_⟩
      · intro x hx
        simp at hx
        exact hx
      · intro hfail
        exact absurd (hfail 1 (by norm_num)) (by simp [h1])
  · have E : get_transaction outcomes 3 = (some r0, 1, []) := by
      rw [get_transaction, e3 0, h0]
      norm_num
    rw [E]
    refine ⟨by norm_num, by norm_num, ?_, ?_⟩
    · intro x hx
      exact absurd hx (List.not_mem_nil x)
    · intro hfail
      exact absurd (hfail 0 (by norm_num)) (by simp [h0])

/-- Witness for C9 at a concrete oracle: every attempt raises a transport
exception; the fetch returns None after 3 attempts and two 0.5 s sleeps. -/
theorem fetch_retry_bounded_witness :
    (get_transaction (fun _ => FetchOutcome.exn) 3).1 = none ∧
    (get_transaction (fun _ => FetchOutcome.exn) 3).2.1 = 3 ∧
    (get_transaction (fun _ => FetchOutcome.exn) 3).2.2 =
      [RETRY_SLEEP, RETRY_SLEEP] :=
  (fetch_retry_bounded (fun _ => FetchOutcome.exn)).2.2.2
    (fun _ _ => rfl)



/-! ### LP event processing (src/journaltx/ingest/quicknode/lp_events.py) -/

/-- The fields of ParsedLPEvent (transaction_parser.py lines 29-64) that
process_parsed_lp_event reads. -/
structure ParsedLPEvent where
  signature : String
  pool_address : String
  is_new_pool : Bool
  token_mint : String
  sol_amount : ℚ
  sol_amount_usd : ℚ
  token_amount : ℚ
  liquidity_sol : ℚ
  market_cap : ℚ
  pair_age_hours : ℚ
  pair_string : String
deriving DecidableEq, Repr

/-- The Alert row created at lp_events.py lines 112-131, restricted to the
fields the listener populates from the event (type/chain/mode are fixed
configuration strings). -/
structure Alert where
  pair : String
  token_mint : String
  pool_address : String
  tx_signature : String
  value_sol : ℚ
  value_usd : ℚ
  lp_sol_before : ℚ
  lp_sol_after : ℚ
  market_cap : ℚ
  pair_age_hours : ℚ
  is_new_pool : Bool
  early_stage_passed : Bool
deriving DecidableEq, Repr

/-- The configuration values process_parsed_lp_event reads. -/
structure ListenerConfig where
  lp_add_min_sol : ℚ
  lp_add_min_usd : ℚ
  preferred_pair_age_hours : ℚ
  near_zero_baseline_sol : ℚ
  hard_reject_baseline_liquidity_sol : ℚ
  hard_reject_pair_age_hours : ℚ
  hard_reject_market_cap_usd : ℚ
  min_lp_sol_threshold : ℚ
  require_multi_signal : Bool
deriving DecidableEq, Repr

/-- LPEventListener.process_parsed_lp_event (lp_events.py lines 41-145):
the two threshold guards drop the event outright; past them, the
early-stage filter runs and the Alert row — carrying the decision as
early_stage_passed — is built and handed to the session (the decision
sink) whatever the filter decided; on_alert fires only when a callback is
supplied and should_alert is true.  The DexScreener fetch inside the filter
is the market_data parameter; returns (persisted alert, updated tracker,
callback fired). -/
def process_parsed_lp_event (cfg : ListenerConfig) (ev : ParsedLPEvent)
    (has_on_alert : Bool) (market_data : Option MarketData)
    (tracker : SignalTracker) (now : ℤ) :
    Option Alert × SignalTracker × Bool :=
  if ev.sol_amount < cfg.lp_add_min_sol then (none, tracker, false)
  else if ev.sol_amount_usd < cfg.lp_add_min_usd then (none, tracker, false)
  else
    (some { pair := ev.pair_string
            token_mint := ev.token_mint
            pool_address := ev.pool_address
            tx_signature := ev.signature
            value_sol := ev.sol_amount
            value_usd := ev.sol_amount_usd
            lp_sol_before := max 0 (ev.liquidity_sol - ev.sol_amount)
            lp_sol_after := ev.liquidity_sol
            market_cap := ev.market_cap
            pair_age_hours := ev.pair_age_hours
            is_new_pool := ev.is_new_pool
            early_stage_passed :=
              (check_early_stage_opportunity ev.pair_string ev.sol_amount
                (max 0 (ev.liquidity_sol - ev.sol_amount))
                cfg.preferred_pair_age_hours cfg.near_zero_baseline_sol
                cfg.hard_reject_baseline_liquidity_sol
                cfg.hard_reject_pair_age_hours cfg.hard_reject_market_cap_usd
                cfg.min_lp_sol_threshold ev.is_new_pool
                cfg.require_multi_signal market_data tracker now).1.should_alert },
     (check_early_stage_opportunity ev.pair_string ev.sol_amount
        (max 0 (ev.liquidity_sol - ev.sol_amount))
        cfg.preferred_pair_age_hours cfg.near_zero_baseline_sol
        cfg.hard_reject_baseline_liquidity_sol cfg.hard_reject_pair_age_hours
        cfg.hard_reject_market_cap_usd cfg.min_lp_sol_threshold ev.is_new_pool
        cfg.require_multi_signal market_data tracker now).2,
     has_on_alert &&
       (check_early_stage_opportunity ev.pair_string ev.sol_amount
          (max 0 (ev.liquidity_sol - ev.sol_amount))
          cfg.preferred_pair_age_hours cfg.near_zero_baseline_sol
          cfg.hard_reject_baseline_liquidity_sol cfg.hard_reject_pair_age_hours
          cfg.hard_reject_market_cap_usd cfg.min_lp_sol_threshold ev.is_new_pool
          cfg.require_multi_signal market_data tracker now).1.should_alert)

/-- Claim C4: every event that passes the two threshold guards is handed to
the decision sink as an Alert carrying the filter decision, whether
should_alert came out true or false; on the no-alert path the record is
still produced (only the notification callback is withheld). -/
theorem event_always_reaches_sink (cfg : ListenerConfig) (ev : ParsedLPEvent)
    (has_on_alert : Bool) (market_data : Option MarketData)
    (tracker : SignalTracker) (now : ℤ)
    (h1 : cfg.lp_add_min_sol ≤ ev.sol_amount)
    (h2 : cfg.lp_add_min_usd ≤ ev.sol_amount_usd) :
    ∃ a : Alert,
      (process_parsed_lp_event cfg ev has_on_alert market_data tracker
        now).1 = some a ∧
      a.early_stage_passed =
        (check_early_stage_opportunity ev.pair_string ev.sol_amount
          (max 0 (ev.liquidity_sol - ev.sol_amount))
          cfg.preferred_pair_age_hours cfg.near_zero_baseline_sol
          cfg.hard_reject_baseline_liquidity_sol cfg.hard_reject_pair_age_hours
          cfg.hard_reject_market_cap_usd cfg.min_lp_sol_threshold ev.is_new_pool
          cfg.require_multi_signal market_data tracker now).1.should_alert ∧
      (process_parsed_lp_event cfg ev has_on_alert market_data tracker
        now).2.2 = (has_on_alert && a.early_stage_passed) := by
  rw [process_parsed_lp_event, if_neg (not_lt.mpr h1), if_neg (not_lt.mpr h2)]
  exact ⟨_, rfl, rfl, rfl⟩

/-- Witness for C4 at concrete inputs: an above-threshold event with no
market data (filter answers no-alert) is still handed to the sink, with
early_stage_passed = false and no callback fired. -/
theorem event_always_reaches_sink_witness :
    ((process_parsed_lp_event
        ⟨40, 4000, 6, 10, 20, 24, 20000000, 300, true⟩
        ⟨"sig", "pool", false, "mint", 100, 10000, 0, 100, 0, 0, "ABC/SOL"⟩
        true none ⟨30, fun _ => []⟩ 0).1.isSome = true) ∧
    ((process_parsed_lp_event
        ⟨40, 4000, 6, 10, 20, 24, 20000000, 300, true⟩
        ⟨"sig", "pool", false, "mint", 100, 10000, 0, 100, 0, 0, "ABC/SOL"⟩
        true none ⟨30, fun _ => []⟩ 0).2.2 = false) := by
  obtain ⟨a, ha, hdec, hcb⟩ := event_always_reaches_sink
    ⟨40, 4000, 6, 10, 20, 24, 20000000, 300, true⟩
    ⟨"sig", "pool", false, "mint", 100, 10000, 0, 100, 0, 0, "ABC/SOL"⟩
    true none ⟨30, fun _ => []⟩ 0 (by norm_num) (by norm_num)
  refine ⟨by rw [ha]; rfl, ?_⟩
  rw [hcb, hdec]
  rfl


end JournalTx
